import Mathlib

/-!
Verification development for the NR RRC engine of srsLTE
(file src, function symbols: rrc_nr::generate_sibs, rrc_nr::read_pdu_bcch_bch,
rrc_nr::read_pdu_bcch_dlsch, rrc_nr::add_user, rrc_nr::stop, rrc_nr::handle_pdu,
rrc_nr::ue::ue, rrc_nr::ue::send_connection_setup, rrc_nr::ue::send_dl_ccch).

The C++ code is shallowly embedded: byte buffers become lists of naturals,
the ASN.1 codec becomes an explicit environment (its bit-level behaviour is
external to the embedded sources), the class members become record fields, and
each member function becomes a Lean function on those records.
-/

namespace RrcNr

/-! ## Configuration data model (rrc_nr_cfg_t, as used by generate_sibs) -/

/-- One entry of cfg.sibs: the abstract content of one information block
(opaque to generate_sibs, which only copies it). -/
structure SibCfg where
  val : Nat
deriving DecidableEq

/-- One element of sched_info_list[i].sib_map_info: carries the sib type value
(in the source, SIB2 corresponds to value 0, used directly as index into cfg.sibs). -/
structure SibTypeInfo where
  type : Nat
deriving DecidableEq

/-- One scheduling entry (sched_info_s): generate_sibs only reads sib_map_info. -/
structure SchedInfo where
  sib_map_info : List SibTypeInfo
deriving DecidableEq

/-- The part of cfg.sib1 that generate_sibs reads: the presence flag and the
scheduling list of cfg.sib1.si_sched_info, plus the rest of SIB1 as opaque
content copied verbatim into message 0. -/
structure Sib1Cfg where
  si_sched_info_present : Bool
  sched_info_list : List SchedInfo
  content : Nat
deriving DecidableEq

/-- The part of rrc_nr_cfg_t read by generate_sibs: the MIB content (opaque,
packed into the cell-wide PDU) and the cfg.sibs array, modelled as a total
index function because the source indexes it by the raw sib type value. -/
structure RrcCfg where
  mib : Nat
  sib1 : Sib1Cfg
  sibs : Nat → SibCfg

/-! ## BCCH-DL-SCH messages built by generate_sibs -/

/-- A bcch_dl_sch_msg_s as generate_sibs fills it: either SIB1 copied from the
configuration, or a sys_info message holding a list of information blocks. -/
inductive BcchDlSchMsg where
  | sibType1 (s : Sib1Cfg)
  | sysInfo (sib_list : List SibCfg)
deriving DecidableEq

/-- The scheduling entries the build loop iterates over: the source computes
nof_messages = si_sched_info_present ? sched_info_list.size() : 0 and loops
over sched_info_list up to nof_messages. -/
def schedEntriesUsed (cfg : RrcCfg) : List SchedInfo :=
  if cfg.sib1.si_sched_info_present then cfg.sib1.sched_info_list else []

/-- The msg array of generate_sibs: msg[0] is SIB1 copied from cfg.sib1; for
each scheduling entry, in ascending index order, one sys_info message whose
sib_type_and_info list collects cfg.sibs[m.type] for every mapping m of the
entry (push_back order preserved). -/
def buildSiMessages (cfg : RrcCfg) : List BcchDlSchMsg :=
  BcchDlSchMsg.sibType1 cfg.sib1 ::
    (schedEntriesUsed cfg).map (fun e =>
      BcchDlSchMsg.sysInfo (e.sib_map_info.map (fun m => cfg.sibs m.type)))

/-! ## Encoding environment

The ASN.1 codec and the byte-buffer pool live outside the embedded source, so
they are an explicit environment: allocOk says whether the i-th call to
make_byte_buffer returns a buffer (i counts the allocations inside one
generate_sibs run, 0 being the MIB buffer); packBch and packDlSch give the
bytes a pack call leaves in the buffer (bref.distance_bytes of them); the
flags packBchOk and packDlSchOk are the success results of pack, which
generate_sibs in the source discards (it never inspects the return value of
pack), while send_dl_ccch does check its pack result. -/
structure EncEnv where
  allocOk : Nat → Bool
  packBch : Nat → List Nat
  packBchOk : Bool
  packDlSch : BcchDlSchMsg → List Nat
  packDlSchOk : BcchDlSchMsg → Bool

/-! ## generate_sibs -/

/-- The state generate_sibs leaves in the rrc_nr object on success: the
cell-wide MIB buffer, the sib_buffer vector (one packed buffer per BCCH-DL-SCH
message), and nof_si_messages = sib_buffer.size() - 1. -/
structure SibState where
  mib_buffer : Option (List Nat)
  sib_buffer : List (List Nat)
  nof_si_messages : Nat
deriving DecidableEq

/-- The packing loop of generate_sibs: for msg_index = 0 .. nof_messages it
allocates a buffer (allocation counter starts at 1, after the MIB buffer),
returns an error if allocation fails, otherwise packs the message (the pack
return value is not inspected by the source) and pushes the bytes. -/
def packMessages (env : EncEnv) (allocIdx : Nat) : List BcchDlSchMsg → Option (List (List Nat))
  | [] => some []
  | m :: rest =>
    if env.allocOk allocIdx then
      (packMessages env (allocIdx + 1) rest).map (fun bufs => env.packDlSch m :: bufs)
    else none

/-- rrc_nr::generate_sibs: packs the MIB into mib_buffer (aborting with an
error when the buffer allocation fails), builds the msg array (SIB1 first,
then one sys_info message per scheduling entry), packs every message into
sib_buffer (aborting with an error when any buffer allocation fails), and sets
nof_si_messages = sib_buffer.size() - 1. none models SRSRAN_ERROR. -/
def generate_sibs (env : EncEnv) (cfg : RrcCfg) : Option SibState :=
  if env.allocOk 0 then
    let mibBytes := env.packBch cfg.mib
    match packMessages env 1 (buildSiMessages cfg) with
    | none => none
    | some bufs =>
      some { mib_buffer := some mibBytes
             sib_buffer := bufs
             nof_si_messages := bufs.length - 1 }
  else none

/-! ## MAC read interface -/

/-- A destination byte_buffer_t as the read functions see it: get_tailroom()
(the capacity available for the copy), the bytes currently in msg, and
N_bytes. -/
structure DestBuffer where
  tailroom : Nat
  msg : List Nat
  nbytes : Nat
deriving DecidableEq

/-- rrc_nr::read_pdu_bcch_bch: error (false) when the MIB buffer is absent or
the destination tailroom is smaller than its byte count, leaving the
destination untouched; otherwise copies the stored bytes and their length. -/
def read_pdu_bcch_bch (st : SibState) (buffer : DestBuffer) : Bool × DestBuffer :=
  match st.mib_buffer with
  | none => (false, buffer)
  | some mib =>
    if buffer.tailroom < mib.length then (false, buffer)
    else (true, { buffer with msg := mib, nbytes := mib.length })

/-- rrc_nr::read_pdu_bcch_dlsch: error (false) when sib_index is not smaller
than sib_buffer.size() or when the destination tailroom is smaller than the
stored byte count, leaving the destination untouched; otherwise copies the
stored bytes and their exact length. -/
def read_pdu_bcch_dlsch (st : SibState) (sib_index : Nat) (buffer : DestBuffer) : Bool × DestBuffer :=
  match st.sib_buffer[sib_index]? with
  | none => (false, buffer)
  | some pdu =>
    if buffer.tailroom < pdu.length then (false, buffer)
    else (true, { buffer with msg := pdu, nbytes := pdu.length })

/-! ## Logging -/

/-- Severity of a structured log record. -/
inductive LogLevel where
  | debug | info | warning | error
deriving DecidableEq

/-- The log call sites relevant to the embedded functions. -/
inductive LogTag where
  | rxPdu                  -- handle_pdu: info hex dump of the received PDU
  | invalidBearerId        -- handle_pdu: error, PDU with invalid bearer id
  | discardingRemovedRnti  -- handle_pdu: warning, PDU for an unknown rnti
  | addedUser              -- add_user: info, new user added
  | userAlreadyExists      -- add_user: error, rnti already exists
  | packFailDlCcch         -- send_dl_ccch: error, failed to pack DL-CCCH message
  | txDlCcch               -- send_dl_ccch: log_rrc_message of the Tx PDU
deriving DecidableEq

/-- One structured log record. -/
structure LogEntry where
  level : LogLevel
  tag : LogTag
deriving DecidableEq

/-- Number of warning records in a log. -/
def warnCount (l : List LogEntry) : Nat :=
  l.countP (fun e => decide (e.level = LogLevel.warning))

/-- Number of error records in a log. -/
def errCount (l : List LogEntry) : Nat :=
  l.countP (fun e => decide (e.level = LogLevel.error))

/-! ## DL-CCCH connection-setup message (rrc_nr::ue::send_connection_setup) -/

/-- One drb_to_add_mod_list item as send_connection_setup fills it. -/
structure DrbItem where
  drb_id : Nat
  pdcp_cfg_present : Bool
  ciphering_disabled_present : Bool
  recover_pdcp_present : Bool
deriving DecidableEq

/-- The dl_ccch_msg rrc_setup content built by send_connection_setup: the
transaction id and the drb list of the radio_bearer_cfg. -/
structure RrcSetupMsg where
  rrc_transaction_id : Nat
  drb_to_add_mod_list : List DrbItem
deriving DecidableEq

/-- The message send_connection_setup builds from the stored counter value:
rrc_transaction_id = counter % 4, one DRB with id 1, pdcp_cfg present,
ciphering disabled present, recover_pdcp not present. -/
def connection_setup_msg (txid : Nat) : RrcSetupMsg :=
  { rrc_transaction_id := txid % 4
    drb_to_add_mod_list := [⟨1, true, true, false⟩] }

/-- Modelled from the spec: the bit-packed codec for the connection-setup
message lives in the ASN.1 library, which is not among the embedded sources.
The spec (wire format, section 6) says every PDU is a fixed bit-packed
encoding with explicit per-field presence flags, length travelling alongside;
its round-trip property (section 8) says decoding an encoded message recovers
its fields. This concrete packing is one such encoding: the transaction id
followed by four values per DRB item. -/
def packDrb (d : DrbItem) : List Nat :=
  [d.drb_id, cond d.pdcp_cfg_present 1 0, cond d.ciphering_disabled_present 1 0,
   cond d.recover_pdcp_present 1 0]

/-- Modelled from the spec: encoding of a whole connection-setup message
(see packDrb). -/
def packDlCcch (m : RrcSetupMsg) : List Nat :=
  m.rrc_transaction_id :: m.drb_to_add_mod_list.flatMap packDrb

/-- Modelled from the spec: decoder for the DRB item list (see packDrb). -/
def unpackDrbs : List Nat → Option (List DrbItem)
  | [] => some []
  | a :: b :: c :: d :: rest =>
    (unpackDrbs rest).map (fun l => ⟨a, b == 1, c == 1, d == 1⟩ :: l)
  | _ => none

/-- Modelled from the spec: decoder for a connection-setup message
(see packDrb). -/
def unpackDlCcch : List Nat → Option RrcSetupMsg
  | [] => none
  | id :: rest => (unpackDrbs rest).map (fun l => ⟨id, l⟩)

/-! ## Per-device context (rrc_nr::ue) -/

/-- A ue object: the transaction_id member and whether its
rrc_setup_periodic_timer is armed. Modelled from the spec: the member
declaration (with its initial value 0) is in the class header, which is not
among the embedded sources; the spec scenario (section 8) fixes the first two
transmitted ids to 0 and 1, so the counter starts at 0, and the counter is a
byte-sized field, so the stored value wraps at 256. -/
structure UeCtx where
  txid : Nat
  armed : Bool
deriving DecidableEq

/-- rrc_nr::ue::ue: the constructor starts the counter at 0 and arms the
periodic timer (set + run). -/
def newUe : UeCtx := { txid := 0, armed := true }

/-- Observable trace of one device context: the context state, the PDUs handed
to rlc->write_sdu as (lcid, bytes) pairs, and the log. -/
structure UeTrace where
  ctx : UeCtx
  sent : List (Nat × List Nat)
  log : List LogEntry
deriving DecidableEq

/-- A fresh context right after rrc_nr::ue::ue ran: nothing sent, nothing
logged, timer armed. -/
def ue0trace : UeTrace := { ctx := newUe, sent := [], log := [] }

/-- Codec outcome for one firing of the timer: whether dl_ccch_msg->pack
succeeds on that firing (buffer allocation is assumed to succeed; the
allocation-failure path of send_dl_ccch dereferences the null buffer and has
no defined behaviour to embed). -/
structure FireEnv where
  packOk : Bool
deriving DecidableEq

/-- A firing on which packing succeeds. -/
def okEnv : FireEnv := { packOk := true }

/-- A firing on which dl_ccch_msg->pack returns SRSASN_ERROR_ENCODE_FAIL. -/
def failEnv : FireEnv := { packOk := false }

/-- One firing of rrc_setup_periodic_timer: if the timer is armed, the
callback runs send_connection_setup — build the message from the current
counter (rrc_transaction_id = (transaction_id++) % 4, so the stored counter
increments by one, wrapping at its byte width) — then send_dl_ccch: log an
error if pack failed (the buffer then holds only the partial encoding,
modelled as empty), log the Tx message, and hand the PDU to rlc->write_sdu on
srb0 (lcid 0) in every case; finally the callback re-arms the timer (run). A
cancelled timer never fires. -/
def fireOnce (env : FireEnv) (t : UeTrace) : UeTrace :=
  if t.ctx.armed then
    let msg := connection_setup_msg t.ctx.txid
    let bytes := if env.packOk then packDlCcch msg else []
    let packLog : List LogEntry := if env.packOk then [] else [⟨.error, .packFailDlCcch⟩]
    { ctx := { txid := (t.ctx.txid + 1) % 256, armed := true }
      sent := t.sent ++ [(0, bytes)]
      log := t.log ++ packLog ++ [⟨.info, .txDlCcch⟩] }
  else t

/-- Destroying a ue (removal from the user table) cancels its unique timer,
so no further firing occurs on this context. -/
def removeUe (t : UeTrace) : UeTrace :=
  { t with ctx := { t.ctx with armed := false } }

/-- The transaction ids observed by decoding every PDU this context handed to
the link layer, in order. -/
def sentIds (t : UeTrace) : List (Option Nat) :=
  t.sent.map (fun p => (unpackDlCcch p.2).map (fun m => m.rrc_transaction_id))

/-! ## Engine state (rrc_nr) and its user table -/

/-- The rrc_nr members the embedded entry points touch: the running flag, the
users map (association list rnti to context, insertion order), the rnti lists
registered with the rlc and pdcp collaborators, and the log. -/
structure EngineState where
  running : Bool
  users : List (Nat × UeCtx)
  rlcUsers : List Nat
  pdcpUsers : List Nat
  log : List LogEntry
deriving DecidableEq

/-- The engine before init: not running, no users, nothing logged. -/
def emptyEngine : EngineState :=
  { running := false, users := [], rlcUsers := [], pdcpUsers := [], log := [] }

/-- Number of armed per-device timers: each context exclusively owns one timer,
armed exactly while the context keeps it running. -/
def armedTimerCount (s : EngineState) : Nat :=
  s.users.countP (fun p => p.2.armed)

/-- rrc_nr::add_user: if users.count(rnti) == 0, insert a fresh ue (whose
constructor arms its timer), register the rnti with rlc and pdcp, and log an
info record; otherwise only log an error (rnti already exists). -/
def add_user (rnti : Nat) (s : EngineState) : EngineState :=
  if s.users.lookup rnti = none then
    { s with users := s.users ++ [(rnti, newUe)]
             rlcUsers := s.rlcUsers ++ [rnti]
             pdcpUsers := s.pdcpUsers ++ [rnti]
             log := s.log ++ [⟨.info, .addedUser⟩] }
  else
    { s with log := s.log ++ [⟨.error, .userAlreadyExists⟩] }

/-- rrc_nr::stop: if running, clear the running flag; then unconditionally
clear the user table (destroying every context cancels its timer). -/
def stop (s : EngineState) : EngineState :=
  let s1 := if s.running then { s with running := false } else s
  { s1 with users := [] }

/-- rrc_nr::handle_pdu: log the received PDU (info) when it is non-null; if
the rnti is known, switch on the lcid — srb0 (0) falls through (the ul_ccch
parse call is commented out), srb1 (1) and srb2 (2) fall through (the ul_dcch
parse call is commented out), any other lcid logs an error — and if the rnti
is unknown, log a warning and discard. Nothing else is touched. -/
def handle_pdu (rnti lcid : Nat) (pdu : Option (List Nat)) (s : EngineState) : EngineState :=
  let s0 := if pdu.isSome then { s with log := s.log ++ [⟨.info, .rxPdu⟩] } else s
  if (s.users.lookup rnti).isSome then
    if lcid = 0 then s0
    else if lcid = 1 ∨ lcid = 2 then s0
    else { s0 with log := s0.log ++ [⟨.error, .invalidBearerId⟩] }
  else
    { s0 with log := s0.log ++ [⟨.warning, .discardingRemovedRnti⟩] }

/-! ## Concrete instances used by witnesses and counterexamples -/

/-- A concrete configuration: scheduling info present, one scheduling entry
mapping one information block of type 0 (SIB2). -/
def cfg1 : RrcCfg :=
  { mib := 5
    sib1 := { si_sched_info_present := true, sched_info_list := [⟨[⟨0⟩]⟩], content := 3 }
    sibs := fun n => ⟨n⟩ }

/-- A codec environment where every allocation and every pack succeeds. -/
def envAllOk : EncEnv :=
  { allocOk := fun _ => true
    packBch := fun n => [n]
    packBchOk := true
    packDlSch := fun m =>
      match m with
      | .sibType1 s => [0, s.content]
      | .sysInfo l => 1 :: l.map (fun s => s.val)
    packDlSchOk := fun _ => true }

/-- The store generate_sibs builds from cfg1 under envAllOk. -/
def sibStEx : SibState :=
  { mib_buffer := some [5], sib_buffer := [[0, 3], [1, 0]], nof_si_messages := 1 }

/-- An environment where the second buffer allocation (the one for SI message
0) fails. -/
def envAllocFail1 : EncEnv :=
  { allocOk := fun j => j != 1
    packBch := fun n => [n]
    packBchOk := true
    packDlSch := fun _ => []
    packDlSchOk := fun _ => true }

/-- An environment where every allocation succeeds but every pack call reports
an encoding failure (leaving only a partial encoding in the buffer). -/
def envPackFail : EncEnv :=
  { allocOk := fun _ => true
    packBch := fun n => [n]
    packBchOk := false
    packDlSch := fun _ => []
    packDlSchOk := fun _ => false }

/-- An empty destination buffer with no tailroom. -/
def buf0 : DestBuffer := { tailroom := 0, msg := [], nbytes := 0 }

/-- A store whose MIB buffer was never built. -/
def sibStNoMib : SibState := { mib_buffer := none, sib_buffer := [], nof_si_messages := 0 }

/-! ## Helper lemmas on the packing loop -/

/-- When the packing loop succeeds, it produced exactly the packed bytes of
its input messages, in order. -/
theorem packMessages_eq_map (env : EncEnv) :
    ∀ (msgs : List BcchDlSchMsg) (i : Nat) (bufs : List (List Nat)),
      packMessages env i msgs = some bufs → bufs = msgs.map env.packDlSch := by
  intro msgs
  induction msgs with
  | nil =>
    intro i bufs h
    simp [packMessages] at h
    subst h
    rfl
  | cons m rest ih =>
    intro i bufs h
    by_cases ha : env.allocOk i
    · rw [packMessages, if_pos ha] at h
      cases hrec : packMessages env (i + 1) rest with
      | none => rw [hrec] at h; simp at h
      | some bs =>
        rw [hrec] at h
        simp at h
        subst h
        simp [ih (i + 1) bs hrec]
    · rw [packMessages, if_neg ha] at h
      exact absurd h (by simp)

/-- When any allocation the packing loop will perform fails, the loop returns
an error. -/
theorem packMessages_alloc_fail (env : EncEnv) :
    ∀ (msgs : List BcchDlSchMsg) (i : Nat),
      (∃ j, j < msgs.length ∧ env.allocOk (i + j) = false) →
      packMessages env i msgs = none := by
  intro msgs
  induction msgs with
  | nil =>
    intro i h
    rcases h with ⟨j, hj, _⟩
    simp at hj
  | cons m rest ih =>
    intro i h
    rcases h with ⟨j, hj, hfail⟩
    by_cases ha : env.allocOk i
    · rw [packMessages, if_pos ha]
      have hj0 : j ≠ 0 := by
        intro h0
        rw [h0, Nat.add_zero] at hfail
        rw [hfail] at ha
        exact Bool.noConfusion ha
      have : packMessages env (i + 1) rest = none := by
        apply ih
        refine ⟨j - 1, ?_, ?_⟩
        · simp at hj; omega
        · have : i + 1 + (j - 1) = i + j := by omega
          rw [this]; exact hfail
      rw [this]
      rfl
    · rw [packMessages, if_neg ha]

/-! ## Claim theorems: system-information build and read -/

/-- Claim C1: for every configuration with the scheduling info present and
holding N entries, a successful generate_sibs run leaves exactly N + 1 SI PDUs
in sib_buffer plus the separate cell-wide MIB PDU in mib_buffer, the SI PDU at
index 0 is the packed SIB1 message regardless of the scheduling-table content,
and nof_si_messages records N. -/
theorem generate_sibs_spec (cfg : RrcCfg) (env : EncEnv) (st : SibState)
    (hpres : cfg.sib1.si_sched_info_present = true)
    (hok : generate_sibs env cfg = some st) :
    st.sib_buffer.length = cfg.sib1.sched_info_list.length + 1 ∧
    st.mib_buffer = some (env.packBch cfg.mib) ∧
    st.sib_buffer[0]? = some (env.packDlSch (BcchDlSchMsg.sibType1 cfg.sib1)) ∧
    st.nof_si_messages = cfg.sib1.sched_info_list.length := by
  unfold generate_sibs at hok
  by_cases ha : env.allocOk 0
  · rw [if_pos ha] at hok
    cases hrec : packMessages env 1 (buildSiMessages cfg) with
    | none => rw [hrec] at hok; exact absurd hok (by simp)
    | some bufs =>
      rw [hrec] at hok
      simp only [Option.some.injEq] at hok
      have hbufs := packMessages_eq_map env (buildSiMessages cfg) 1 bufs hrec
      have hmsgs : buildSiMessages cfg =
          BcchDlSchMsg.sibType1 cfg.sib1 ::
            (cfg.sib1.sched_info_list).map (fun e =>
              BcchDlSchMsg.sysInfo (e.sib_map_info.map (fun m => cfg.sibs m.type))) := by
        rw [buildSiMessages, schedEntriesUsed, if_pos hpres]
      subst hok
      rw [hbufs, hmsgs]
      refine ⟨by simp, rfl, by simp, by simp⟩
  · rw [if_neg ha] at hok
    exact absurd hok (by simp)

/-- Claim C1 witness: the theorem instantiated at the concrete configuration
cfg1 (one scheduling entry) under the all-success codec environment. -/
theorem generate_sibs_spec_witness :
    sibStEx.sib_buffer.length = cfg1.sib1.sched_info_list.length + 1 ∧
    sibStEx.mib_buffer = some (envAllOk.packBch cfg1.mib) ∧
    sibStEx.sib_buffer[0]? = some (envAllOk.packDlSch (BcchDlSchMsg.sibType1 cfg1.sib1)) ∧
    sibStEx.nof_si_messages = cfg1.sib1.sched_info_list.length :=
  generate_sibs_spec cfg1 envAllOk sibStEx (by decide) (by decide)

/-- Claim C2 counterexample: an encoding (pack) failure on a message does not
make the build return an error — under an environment where every pack call
reports an encoding failure but allocations succeed, generate_sibs still
succeeds, because the source discards the return value of pack. -/
theorem generate_sibs_pack_fail_cex :
    envPackFail.packDlSchOk (BcchDlSchMsg.sibType1 cfg1.sib1) = false ∧
    envPackFail.packBchOk = false ∧
    (generate_sibs envPackFail cfg1).isSome = true := by decide

/-- Claim C2 (amended): a buffer-allocation failure (buffer exhaustion) for
any single message — the cell-wide message (allocation index 0) or any of the
SI messages — causes the whole generate_sibs build to return an error. -/
theorem generate_sibs_alloc_fail (cfg : RrcCfg) (env : EncEnv)
    (h : ∃ j, j ≤ (buildSiMessages cfg).length ∧ env.allocOk j = false) :
    generate_sibs env cfg = none := by
  rcases h with ⟨j, hj, hfail⟩
  by_cases h0 : env.allocOk 0
  · have hj0 : j ≠ 0 := by
      intro h0'
      rw [h0'] at hfail
      rw [hfail] at h0
      exact Bool.noConfusion h0
    unfold generate_sibs
    rw [if_pos h0]
    have : packMessages env 1 (buildSiMessages cfg) = none := by
      apply packMessages_alloc_fail
      refine ⟨j - 1, by omega, ?_⟩
      have : 1 + (j - 1) = j := by omega
      rw [this]; exact hfail
    rw [this]
  · unfold generate_sibs
    rw [if_neg h0]

/-- Claim C2 witness: the amended theorem instantiated at cfg1 under an
environment whose allocation 1 (the buffer of SI message 0) fails. -/
theorem generate_sibs_alloc_fail_witness :
    generate_sibs envAllocFail1 cfg1 = none :=
  generate_sibs_alloc_fail cfg1 envAllocFail1 ⟨1, by decide, by decide⟩

/-- Claim C3: with a store of E + 1 SI PDUs, read_pdu_bcch_dlsch reports an
error and leaves the destination untouched for every index above E; for every
in-range index there is a stored PDU, and the call reports an error leaving
the destination untouched when the destination tailroom is below the stored
byte count (never truncating), and otherwise copies the stored bytes and their
exact length. -/
theorem read_pdu_bcch_dlsch_spec (st : SibState) (E : Nat) (buf : DestBuffer) (idx : Nat)
    (hlen : st.sib_buffer.length = E + 1) :
    (E < idx → read_pdu_bcch_dlsch st idx buf = (false, buf)) ∧
    (idx ≤ E → ∃ pdu, st.sib_buffer[idx]? = some pdu ∧
      (buf.tailroom < pdu.length → read_pdu_bcch_dlsch st idx buf = (false, buf)) ∧
      (pdu.length ≤ buf.tailroom →
        read_pdu_bcch_dlsch st idx buf =
          (true, { buf with msg := pdu, nbytes := pdu.length }))) := by
  constructor
  · intro hgt
    have hnone : st.sib_buffer[idx]? = none := by
      rw [List.getElem?_eq_none_iff]
      omega
    unfold read_pdu_bcch_dlsch
    rw [hnone]
  · intro hle
    cases hget : st.sib_buffer[idx]? with
    | none =>
      have := List.getElem?_eq_none_iff.mp hget
      omega
    | some pdu =>
      refine ⟨pdu, rfl, ?_, ?_⟩
      · intro hsmall
        simp [read_pdu_bcch_dlsch, hget, hsmall]
      · intro hfits
        simp [read_pdu_bcch_dlsch, hget, Nat.not_lt.mpr hfits]

/-- Claim C3 witness: the theorem instantiated at the concrete two-PDU store,
an empty destination, and the out-of-range index 5. -/
theorem read_pdu_bcch_dlsch_spec_witness :
    read_pdu_bcch_dlsch sibStEx 5 buf0 = (false, buf0) :=
  (read_pdu_bcch_dlsch_spec sibStEx 1 buf0 5 (by decide)).1 (by decide)

/-- Claim C10: when the cell-wide MIB buffer has not been built,
read_pdu_bcch_bch returns an error and leaves the destination buffer
untouched. -/
theorem read_pdu_bcch_bch_no_mib (st : SibState) (buf : DestBuffer)
    (h : st.mib_buffer = none) :
    read_pdu_bcch_bch st buf = (false, buf) := by
  unfold read_pdu_bcch_bch
  rw [h]

/-- Claim C10 witness: the theorem instantiated at a store with no MIB buffer
and an empty destination. -/
theorem read_pdu_bcch_bch_no_mib_witness :
    read_pdu_bcch_bch sibStNoMib buf0 = (false, buf0) :=
  read_pdu_bcch_bch_no_mib sibStNoMib buf0 rfl

/-! ## Helper lemmas on the connection-setup procedure -/

/-- Decoding the encoding of a connection-setup message recovers it. -/
theorem unpack_pack_setup (n : Nat) :
    unpackDlCcch (packDlCcch (connection_setup_msg n)) = some (connection_setup_msg n) := rfl

/-- One firing of an armed context under a successful codec: the counter
advances by one (mod 256), the encoded message built from the old counter is
appended to the sent PDUs, and the Tx log record is written. -/
theorem fireOnce_ok_armed (t : UeTrace) (h : t.ctx.armed = true) :
    fireOnce okEnv t =
      { ctx := { txid := (t.ctx.txid + 1) % 256, armed := true }
        sent := t.sent ++ [((0 : Nat), packDlCcch (connection_setup_msg t.ctx.txid))]
        log := t.log ++ [⟨.info, .txDlCcch⟩] } := by
  rw [fireOnce, if_pos h]
  simp [okEnv]

/-- Invariant of k successful firings of a fresh context: the stored counter
holds k mod 256, the timer is still armed, and the k transmitted PDUs are the
encodings of the messages built from counter values 0, 1, ... in order. -/
theorem fire_iter_ok (k : Nat) :
    ((fireOnce okEnv)^[k] ue0trace).ctx.txid = k % 256 ∧
    ((fireOnce okEnv)^[k] ue0trace).ctx.armed = true ∧
    ((fireOnce okEnv)^[k] ue0trace).sent =
      (List.range k).map (fun i => ((0 : Nat), packDlCcch (connection_setup_msg (i % 256)))) := by
  induction k with
  | zero => exact ⟨rfl, rfl, rfl⟩
  | succ k ih =>
    obtain ⟨h1, h2, h3⟩ := ih
    rw [Function.iterate_succ_apply', fireOnce_ok_armed _ h2]
    refine ⟨?_, rfl, ?_⟩
    · show (((fireOnce okEnv)^[k] ue0trace).ctx.txid + 1) % 256 = (k + 1) % 256
      rw [h1]
      omega
    · show ((fireOnce okEnv)^[k] ue0trace).sent ++
          [((0 : Nat), packDlCcch (connection_setup_msg ((fireOnce okEnv)^[k] ue0trace).ctx.txid))] =
          (List.range (k + 1)).map (fun i => ((0 : Nat), packDlCcch (connection_setup_msg (i % 256))))
      rw [h3, h1, List.range_succ, List.map_append]
      rfl

/-- The decoded transaction ids of the PDUs sent over k successful firings are
0, 1, 2, 3, 0, ... (each counter value reduced mod 4). -/
theorem sentIds_iter (k : Nat) :
    sentIds ((fireOnce okEnv)^[k] ue0trace) = (List.range k).map (fun i => some (i % 4)) := by
  rw [sentIds, (fire_iter_ok k).2.2, List.map_map]
  apply List.map_congr_left
  intro i _
  show (unpackDlCcch (packDlCcch (connection_setup_msg (i % 256)))).map
      (fun m => m.rrc_transaction_id) = some (i % 4)
  rw [unpack_pack_setup]
  show some ((i % 256) % 4) = some (i % 4)
  rw [Nat.mod_mod_of_dvd i (by norm_num : (4 : Nat) ∣ 256)]

/-! ## Claim theorems: connection-setup procedure -/

/-- Claim C4 counterexample: the message encoded on the 1st timer firing since
context creation decodes to transaction id 0, while the claim predicts
1 mod 4 = 1. -/
theorem connection_setup_kth_id_cex :
    sentIds ((fireOnce okEnv)^[1] ue0trace) = [some 0] ∧ (0 : Nat) ≠ 1 % 4 := by decide

/-- Claim C4 (amended): decoding the connection-setup-offer encoded on the
k-th timer firing since context creation (k ≥ 1) yields transaction id
(k - 1) mod 4; and the scenario holds as claimed: a context fired twice, then
removed (cancelling its timer) so that a further firing does nothing, has
transmitted exactly 2 PDUs carrying ids 0 and 1. -/
theorem connection_setup_kth_id (k : Nat) (hk : 1 ≤ k) :
    (sentIds ((fireOnce okEnv)^[k] ue0trace))[k - 1]? = some (some ((k - 1) % 4)) ∧
    sentIds (fireOnce okEnv (removeUe ((fireOnce okEnv)^[2] ue0trace))) = [some 0, some 1] := by
  constructor
  · rw [sentIds_iter k]
    rw [List.getElem?_map]
    have hlt : k - 1 < k := by omega
    simp [List.getElem?_range hlt]
  · decide

/-- Claim C4 witness: the amended theorem instantiated at the first firing. -/
theorem connection_setup_kth_id_witness :
    (sentIds ((fireOnce okEnv)^[1] ue0trace))[1 - 1]? = some (some ((1 - 1) % 4)) ∧
    sentIds (fireOnce okEnv (removeUe ((fireOnce okEnv)^[2] ue0trace))) = [some 0, some 1] :=
  connection_setup_kth_id 1 (by decide)

/-- Claim C5, evaluated at the failing input (a firing on which
dl_ccch_msg->pack reports an encoding failure): the failure is logged (exactly
one error record, from the pack-failure site) and the timer is re-armed so the
next firing occurs — but the message is still handed to the link-layer write
primitive (the sent list grows to length 1, and to 2 after the next firing),
contradicting the claimed drop and the discard announced by the log text of
the code itself. -/
theorem send_dl_ccch_pack_fail_eval :
    (fireOnce failEnv ue0trace).sent.length = 1 ∧
    errCount (fireOnce failEnv ue0trace).log = 1 ∧
    (fireOnce failEnv ue0trace).log.countP
        (fun e => decide (e.tag = LogTag.packFailDlCcch)) = 1 ∧
    (fireOnce failEnv ue0trace).ctx.armed = true ∧
    (fireOnce okEnv (fireOnce failEnv ue0trace)).sent.length = 2 := by decide

/-- Claim C9 counterexample: after 4 timer firings the counter held in the
state of the context is 4, which is outside [0, 3] — the stored counter is not
reduced modulo 4, only the transmitted id is. -/
theorem stored_txid_cex :
    ((fireOnce okEnv)^[4] ue0trace).ctx.txid = 4 ∧
    ¬ ((fireOnce okEnv)^[4] ue0trace).ctx.txid ≤ 3 := by decide

/-- Claim C9 (amended): after every timer firing the stored counter equals the
number of firings mod 256 (it increments by one per firing, wrapping only at
its byte width); the transaction id carried in every transmitted message is
the counter value reduced mod 4, hence always in [0, 3]. -/
theorem stored_txid_amended (k : Nat) :
    ((fireOnce okEnv)^[k] ue0trace).ctx.txid = k % 256 ∧
    sentIds ((fireOnce okEnv)^[k] ue0trace) = (List.range k).map (fun i => some (i % 4)) :=
  ⟨(fire_iter_ok k).1, sentIds_iter k⟩

/-! ## Helper lemmas on the user table -/

/-- Looking a key up in a concatenation whose first part lacks the key falls
through to the second part. -/
theorem lookup_append_of_none {a : Nat} :
    ∀ (l₁ l₂ : List (Nat × UeCtx)), l₁.lookup a = none →
      (l₁ ++ l₂).lookup a = l₂.lookup a := by
  intro l₁
  induction l₁ with
  | nil => intro l₂ _; rfl
  | cons p t ih =>
    intro l₂ h
    obtain ⟨k, v⟩ := p
    by_cases hk : a = k
    · subst hk
      simp [List.lookup] at h
    · have hbeq : (a == k) = false := beq_eq_false_iff_ne.mpr hk
      simp only [List.lookup, hbeq] at h
      rw [List.cons_append]
      simp only [List.lookup, hbeq]
      exact ih l₂ h

/-- A key that does not look up is not among the keys. -/
theorem not_mem_keys_of_lookup_none {a : Nat} :
    ∀ (l : List (Nat × UeCtx)), l.lookup a = none → a ∉ l.map Prod.fst := by
  intro l
  induction l with
  | nil => intro _; simp
  | cons p t ih =>
    intro h
    obtain ⟨k, v⟩ := p
    by_cases hk : a = k
    · subst hk
      simp [List.lookup] at h
    · have hbeq : (a == k) = false := beq_eq_false_iff_ne.mpr hk
      simp only [List.lookup, hbeq] at h
      simp only [List.map_cons, List.mem_cons]
      rintro (h1 | h1)
      · exact hk h1
      · exact ih h h1

/-- The key just inserted at the end of the table looks up to the inserted
context when the key was absent before. -/
theorem lookup_insert_self (l : List (Nat × UeCtx)) (a : Nat) (v : UeCtx)
    (h : l.lookup a = none) : (l ++ [(a, v)]).lookup a = some v := by
  rw [lookup_append_of_none l [(a, v)] h]
  simp [List.lookup]

/-! ## Claim theorems: engine and user table -/

/-- Claim C6: adding an absent device id creates exactly one context and arms
exactly one timer; a repeated call with the same id leaves the table and the
armed-timer count unchanged (the existing context untouched) and logs one more
error (duplicate registration); and key uniqueness of the table is
preserved by both calls. -/
theorem add_user_spec (s : EngineState) (rnti : Nat)
    (hfresh : s.users.lookup rnti = none)
    (hnodup : (s.users.map Prod.fst).Nodup) :
    (add_user rnti s).users.length = s.users.length + 1 ∧
    armedTimerCount (add_user rnti s) = armedTimerCount s + 1 ∧
    (add_user rnti (add_user rnti s)).users = (add_user rnti s).users ∧
    armedTimerCount (add_user rnti (add_user rnti s)) = armedTimerCount (add_user rnti s) ∧
    errCount (add_user rnti (add_user rnti s)).log = errCount (add_user rnti s).log + 1 ∧
    ((add_user rnti s).users.map Prod.fst).Nodup ∧
    ((add_user rnti (add_user rnti s)).users.map Prod.fst).Nodup := by
  have h1 : add_user rnti s =
      { s with users := s.users ++ [(rnti, newUe)]
               rlcUsers := s.rlcUsers ++ [rnti]
               pdcpUsers := s.pdcpUsers ++ [rnti]
               log := s.log ++ [⟨.info, .addedUser⟩] } := by
    rw [add_user, if_pos hfresh]
  have hdup : (add_user rnti s).users.lookup rnti = some newUe := by
    rw [h1]
    exact lookup_insert_self s.users rnti newUe hfresh
  have h2 : add_user rnti (add_user rnti s) =
      { add_user rnti s with
          log := (add_user rnti s).log ++ [⟨.error, .userAlreadyExists⟩] } := by
    rw [add_user]
    rw [if_neg (by rw [hdup]; exact fun hc => Option.noConfusion hc)]
  have hnodup1 : ((add_user rnti s).users.map Prod.fst).Nodup := by
    rw [h1]
    simp only [List.map_append, List.map_cons, List.map_nil]
    rw [List.nodup_append]
    refine ⟨hnodup, List.nodup_singleton rnti, ?_⟩
    intro x hx hx'
    simp only [List.mem_singleton] at hx'
    subst hx'
    exact not_mem_keys_of_lookup_none s.users hfresh hx
  refine ⟨?_, ?_, ?_, ?_, ?_, hnodup1, ?_⟩
  · rw [h1]; simp
  · rw [h1, armedTimerCount, armedTimerCount]
    simp [List.countP_append, newUe]
  · rw [h2]
  · rw [h2, armedTimerCount, armedTimerCount]
  · rw [h2, errCount, errCount]
    simp [List.countP_append]
  · rw [h2]
    exact hnodup1

/-- Claim C6 witness: the theorem instantiated at the empty engine and device
id 0x46. -/
theorem add_user_spec_witness :
    (add_user 70 emptyEngine).users.length = emptyEngine.users.length + 1 ∧
    armedTimerCount (add_user 70 emptyEngine) = armedTimerCount emptyEngine + 1 ∧
    (add_user 70 (add_user 70 emptyEngine)).users = (add_user 70 emptyEngine).users ∧
    armedTimerCount (add_user 70 (add_user 70 emptyEngine)) =
      armedTimerCount (add_user 70 emptyEngine) ∧
    errCount (add_user 70 (add_user 70 emptyEngine)).log =
      errCount (add_user 70 emptyEngine).log + 1 ∧
    ((add_user 70 emptyEngine).users.map Prod.fst).Nodup ∧
    ((add_user 70 (add_user 70 emptyEngine)).users.map Prod.fst).Nodup :=
  add_user_spec emptyEngine 70 rfl (by decide)

/-- Claim C7 counterexample: stop() does not tear down the context table only
when the engine is running — from a state that is not running but holds one
context (reached here by an add_user after a stop), another stop still clears
the table. -/
theorem stop_teardown_cex :
    (add_user 70 (stop emptyEngine)).running = false ∧
    (add_user 70 (stop emptyEngine)).users ≠ [] ∧
    (stop (add_user 70 (stop emptyEngine))).users = [] := by decide

/-- Claim C7 (amended): after one stop() the engine is not running and the
context table is empty, and a second stop() changes nothing observable (the
state is identical, so there is no second teardown); the table is cleared
unconditionally, whether or not the engine was running. -/
theorem stop_idempotent (s : EngineState) :
    (stop s).running = false ∧ (stop s).users = [] ∧ stop (stop s) = stop s := by
  obtain ⟨r, u, rl, pd, lg⟩ := s
  cases r <;> simp [stop]

/-- Claim C8: handle_pdu never changes the running flag, the context table, or
the collaborator registrations (no context created, nothing forwarded); an
unknown device id logs exactly one more warning (the PDU is discarded with no
propagated error); a known id logs one more error exactly when the channel id
is not one of 0, 1, 2 (0 is accepted without decoding, 1 and 2 are accepted
but unimplemented, anything else is rejected). -/
theorem handle_pdu_spec (s : EngineState) (rnti lcid : Nat) (pdu : Option (List Nat)) :
    (handle_pdu rnti lcid pdu s).running = s.running ∧
    (handle_pdu rnti lcid pdu s).users = s.users ∧
    (handle_pdu rnti lcid pdu s).rlcUsers = s.rlcUsers ∧
    (handle_pdu rnti lcid pdu s).pdcpUsers = s.pdcpUsers ∧
    warnCount (handle_pdu rnti lcid pdu s).log =
      warnCount s.log + (if (s.users.lookup rnti).isSome = true then 0 else 1) ∧
    errCount (handle_pdu rnti lcid pdu s).log =
      errCount s.log +
        (if (s.users.lookup rnti).isSome = true ∧ lcid ≠ 0 ∧ lcid ≠ 1 ∧ lcid ≠ 2
         then 1 else 0) := by
  unfold handle_pdu
  rcases pdu with _ | p <;>
    by_cases hu : (s.users.lookup rnti).isSome = true <;>
      by_cases h0 : lcid = 0 <;>
        by_cases h12 : lcid = 1 ∨ lcid = 2 <;>
          simp_all [warnCount, errCount, List.countP_append] <;>
            omega

end RrcNr
